import Mathlib

/-!
# Verification of the loopback HTTP fuzzer (`src/y.py`)

This file shallowly embeds the fuzzer implemented by the class
`LoopbackFuzzer`: pattern generation (`generate_random_patterns`),
artifact-filename derivation (`save_curl_response`), base64 encoding of the
pattern as done per request, the driver loop (`fuzz_server`) with its
per-iteration exception handling, and the reporter (`print_summary`).

Randomness (`random.choice`, `random.shuffle`) is modelled by explicit
parameters: a choice function giving the outcome of the four slot draws of
each iteration, and a shuffle function assumed only to permute its input.
I/O effects per iteration (the HTTP response or failure, whether the
artifact write succeeds, the timestamp) are modelled by an environment
value consumed by the loop.
-/

namespace Fuzzer

/-- The slot value list of `generate_random_patterns`:
`values = [""] + [str(i) for i in range(32)]`. -/
def values : List String := "" :: (List.range 32).map Nat.repr


/-- One pattern built from the four slot draws: the four chosen slot
values joined by the `'@'` delimiter, each slot drawn by
`random.choice(values)`, modelled as an index into `values`. -/
def mkPattern (c : Fin 33 × Fin 33 × Fin 33 × Fin 33) : String :=
  values.getD c.1.1 "" ++ "@" ++ values.getD c.2.1.1 "" ++ "@" ++
    values.getD c.2.2.1.1 "" ++ "@" ++ values.getD c.2.2.2.1 ""


/-- The generator `generate_random_patterns`.  `maxPatterns` is `self.max_patterns`
(`None` or an integer); note the Python truthiness test
`if self.max_patterns:` treats `0` like `None`.  `choice i` gives the four
`random.choice(values)` outcomes of loop iteration `i`, and `shuffle`
models the final `random.shuffle(patterns)`. -/
def generate_random_patterns (maxPatterns : Option Nat)
    (choice : Nat → Fin 33 × Fin 33 × Fin 33 × Fin 33)
    (shuffle : List String → List String) : List String :=
  let total_patterns : Nat :=
    match maxPatterns with
    | some n => if n ≠ 0 then n else 33 ^ 4
    | none => 33 ^ 4
  shuffle ((List.range total_patterns).map fun i => mkPattern (choice i))


/-- A valid slot: the empty string, or the decimal representation of an
integer in `[0, 31]`. -/
def validSlot (s : String) : Prop :=
  s = "" ∨ ∃ n, n ≤ 31 ∧ s = Nat.repr n


/-- A valid pattern: exactly three `'@'` delimiter characters, splitting
the string into four valid, `'@'`-free slots. -/
def validPattern (p : String) : Prop :=
  p.data.count '@' = 3 ∧
  ∃ s1 s2 s3 s4, p = s1 ++ "@" ++ s2 ++ "@" ++ s3 ++ "@" ++ s4 ∧
    (∀ s ∈ [s1, s2, s3, s4], s.data.count '@' = 0 ∧ validSlot s)


/-- Python `str.replace(a, b)` for single-character `a`, `b`: replace every
occurrence of the character `a` by `b`. -/
def pyReplace (s : String) (a b : Char) : String :=
  ⟨s.data.map fun c => if c = a then b else c⟩


/-- The Python format spec `06d` applied to a nonnegative integer: the
decimal digits, left-padded with `'0'` to a minimum width of 6. -/
def pad6 (n : Nat) : String :=
  ⟨List.replicate (6 - (Nat.repr n).length) '0'⟩ ++ Nat.repr n


/-- The artifact filename derived in `save_curl_response`: the literal
`response_`, the 6-zero-padded `response_count`, an underscore, the
sanitized pattern `pattern.replace('@', '_').replace('/', '_')`, and the
suffix `.txt`. -/
def artifactFilename (response_count : Nat) (pattern : String) : String :=
  "response_" ++ pad6 response_count ++ "_" ++
    pyReplace (pyReplace pattern '@' '_') '/' '_' ++ ".txt"


/-- The filename as the spec words it: `'response_'`, the zero-padded
sequence number, `'_'`, the pattern with every `'@'` and `'/'` character
replaced by `'_'`, and `'.txt'`. -/
def specFilename (s : Nat) (p : String) : String :=
  "response_" ++ pad6 s ++ "_" ++
    (⟨p.data.map fun c => if c = '@' ∨ c = '/' then '_' else c⟩ : String) ++ ".txt"


/-- The classification test of the driver loop (Python precedence:
`or` binds weaker than `and`):
`response.status_code >= 400 or response.status_code == 200 and len(response.content) == 0`. -/
def isInteresting (status_code content_length : Nat) : Bool :=
  400 ≤ status_code || (status_code == 200 && content_length == 0)


/-- The standard base64 alphabet used by `base64.b64encode`. -/
def b64Alphabet : List Char :=
  "ABCDEFGHIJKLMNOPQRSTUVWXYZabcdefghijklmnopqrstuvwxyz0123456789+/".data


/-- The alphabet character for a sextet value. -/
def sextetChar (n : Nat) : Char := b64Alphabet.getD n 'A'


/-- The sextet value of an alphabet character (inverse lookup used by the
decoder). -/
def charVal (c : Char) : Option Nat := b64Alphabet.findIdx? (· == c)


/-- Encoding `base64.b64encode` on a byte sequence: 3-byte groups become 4 alphabet
characters, a trailing group of 1 or 2 bytes is padded with `'='`. -/
def encodeBytes : List Nat → List Char
  | [] => []
  | [a] => [sextetChar (a / 4), sextetChar (a % 4 * 16), '=', '=']
  | [a, b] => [sextetChar (a / 4), sextetChar (a % 4 * 16 + b / 16),
      sextetChar (b % 16 * 4), '=']
  | a :: b :: c :: rest =>
      sextetChar (a / 4) :: sextetChar (a % 4 * 16 + b / 16) ::
        sextetChar (b % 16 * 4 + c / 64) :: sextetChar (c % 64) :: encodeBytes rest


/-- Standard base64 decoding (`base64.b64decode`): 4-character groups with
optional trailing `'='` padding, `none` on malformed input. -/
def decodeBytes : List Char → Option (List Nat)
  | [] => some []
  | c1 :: c2 :: c3 :: c4 :: rest =>
      match charVal c1, charVal c2 with
      | some v1, some v2 =>
          if c3 = '=' then
            if c4 = '=' ∧ rest = [] then some [v1 * 4 + v2 / 16] else none
          else
            match charVal c3 with
            | some v3 =>
                if c4 = '=' then
                  if rest = [] then
                    some [v1 * 4 + v2 / 16, v2 % 16 * 16 + v3 / 4]
                  else none
                else
                  match charVal c4, decodeBytes rest with
                  | some v4, some r =>
                      some ((v1 * 4 + v2 / 16) :: (v2 % 16 * 16 + v3 / 4) ::
                        (v3 % 4 * 64 + v4) :: r)
                  | _, _ => none
            | none => none
      | _, _ => none
  | _ => none


/-- The UTF-8 byte sequence of a string, as Python's `pattern.encode()`
produces it. -/
def utf8Bytes (s : String) : List Nat :=
  (s.data.flatMap fun c => String.utf8EncodeChar c).map UInt8.toNat


/-- The per-iteration encoding of the driver loop:
`encoded_pattern = base64.b64encode(pattern.encode()).decode()`. -/
def b64encode (pattern : String) : String := ⟨encodeBytes (utf8Bytes pattern)⟩


/-- Outcome of one iteration of the driver loop, i.e. which of the four
`try/except` paths of the loop body of `fuzz_server` is taken: the
`requests.get` call returns a response, raises
`requests.exceptions.RequestException`, a `KeyboardInterrupt` arrives, or
some other exception is raised. -/
inductive HttpOutcome where
  | success (status_code : Nat) (content : List Nat) (text : String)
  | transportError (msg : String)
  | interrupt
  | unexpected (msg : String)
  deriving DecidableEq


/-- The environment of one iteration: the HTTP outcome, whether the
artifact file write inside `save_curl_response` succeeds (its `try` does
not raise), and the wall-clock timestamp `datetime.now().isoformat()`. -/
structure IterEnv where
  http : HttpOutcome
  writeOk : Bool
  ts : String
  deriving DecidableEq


/-- One entry of the fuzzer's in-memory `self.results` list: a Python dict
with either the success keys or the error keys.  A `none` field models an
absent key.  `curl_file` is doubly optional: the key is absent on failure
records, and present with value `None` when the artifact write failed. -/
structure ResultRecord where
  pattern : String
  encoded_pattern : String
  url : String
  status_code : Option Nat := none
  content_length : Option Nat := none
  curl_file : Option (Option String) := none
  error : Option String := none
  timestamp : String
  deriving DecidableEq


/-- The recorder `save_curl_response`: writes the artifact under
`os.path.join("curl", filename)` and returns the filepath, or returns
`None` when the write raises (the exception is caught and logged).
`writeOk` models whether the file write succeeds. -/
def save_curl_response (writeOk : Bool) (response_count : Nat)
    (pattern : String) : Option String :=
  if writeOk then some ("curl/" ++ artifactFilename response_count pattern)
  else none


/-- The observable effects of one execution of the loop body of
`fuzz_server`: the record appended to `self.results` (if any), whether the
`[!] INTERESTING` line was printed, whether `time.sleep(self.delay)` ran,
and whether a `KeyboardInterrupt` broke the loop. -/
structure IterStep where
  record : Option ResultRecord
  interesting : Bool
  slept : Bool
  interrupted : Bool
  deriving DecidableEq


/-- One execution of the body of
`for i, pattern in enumerate(patterns, 1):` in `fuzz_server`. -/
def processOne (base_url : String) (i : Nat) (pattern : String)
    (env : IterEnv) : IterStep :=
  let encoded := b64encode pattern
  let url := base_url ++ encoded
  match env.http with
  | .success sc content _ =>
      let curl_file := save_curl_response env.writeOk i pattern
      let record : ResultRecord :=
        { pattern := pattern, encoded_pattern := encoded, url := url,
          status_code := some sc, content_length := some content.length,
          curl_file := some curl_file, timestamp := env.ts }
      { record := some record,
        interesting := isInteresting sc content.length,
        slept := true, interrupted := false }
  | .transportError msg =>
      let record : ResultRecord :=
        { pattern := pattern, encoded_pattern := encoded, url := url,
          error := some msg, timestamp := env.ts }
      { record := some record, interesting := false, slept := false,
        interrupted := false }
  | .interrupt =>
      { record := none, interesting := false, slept := false,
        interrupted := true }
  | .unexpected _ =>
      { record := none, interesting := false, slept := false,
        interrupted := false }


/-- The driver loop of `fuzz_server`: process the patterns in order
starting at index `i` (the loop enumerates from 1), appending each
iteration's record to the result list; a `KeyboardInterrupt` breaks the
loop, every other outcome continues with the next pattern.  Returns the
accumulated `self.results`. -/
def fuzz_server (base_url : String) : Nat → List (String × IterEnv) →
    List ResultRecord
  | _, [] => []
  | i, (pattern, env) :: rest =>
      let step := processOne base_url i pattern env
      if step.interrupted then []
      else step.record.toList ++ fuzz_server base_url (i + 1) rest


/-- Reporter list `successful = [r for r in self.results if 'status_code' in r]`. -/
def successfulRecords (results : List ResultRecord) : List ResultRecord :=
  results.filter fun r => r.status_code.isSome


/-- Reporter list `errors = [r for r in self.results if 'error' in r]`. -/
def errorRecords (results : List ResultRecord) : List ResultRecord :=
  results.filter fun r => r.error.isSome


/-- Reporter list `curl_files = [r for r in self.results if 'curl_file' in r and
r['curl_file'] is not None]`. -/
def curlFileRecords (results : List ResultRecord) : List ResultRecord :=
  results.filter fun r =>
    match r.curl_file with
    | some (some _) => true
    | _ => false


/-- The `status_codes` frequency dict of `print_summary`, as the count for
each status code. -/
def statusCodeCount (results : List ResultRecord) (code : Nat) : Nat :=
  (successfulRecords results).countP fun r => r.status_code == some code


/-- The aggregate statistics printed by `print_summary`. -/
structure Summary where
  total : Nat
  successful : Nat
  errors : Nat
  curl_files : Nat
  status_codes : Nat → Nat


/-- The reporter `print_summary`, as the statistics it computes from `self.results`. -/
def print_summary (results : List ResultRecord) : Summary :=
  { total := results.length,
    successful := (successfulRecords results).length,
    errors := (errorRecords results).length,
    curl_files := (curlFileRecords results).length,
    status_codes := statusCodeCount results }


/-- Does an iteration environment take one of the two record-producing
paths of the loop body (a response, or a caught transport failure)? -/
def isNormalEnv (env : IterEnv) : Bool :=
  match env.http with
  | .success _ _ _ => true
  | .transportError _ => true
  | _ => false


/-- Did the `requests.get` call of the iteration return a response? -/
def isSuccessOutcome : HttpOutcome → Bool
  | .success _ _ _ => true
  | _ => false


/-- The default inter-request delay: `DELAY = 0.01` seconds (and the
`delay=0.01` default of `__init__`). -/
def defaultDelaySeconds : ℚ := 1 / 100


/-- Two normally processed iterations used by the witness runs. -/
def demoNormal : List (String × IterEnv) :=
  [("1@2@3@4", ⟨.success 200 [79, 75] "OK", true, "t1"⟩),
   ("@@@", ⟨.transportError "conn", true, "t2"⟩)]


/-- The Failure record produced by the second iteration of `demoNormal`. -/
def demoFailureRecord : ResultRecord :=
  { pattern := "@@@", encoded_pattern := b64encode "@@@",
    url := "u" ++ b64encode "@@@", error := some "conn", timestamp := "t2" }


theorem values_length : values.length = 33 := by
  simp [values]


theorem mem_values (s : String) (hs : s ∈ values) : validSlot s := by
  rcases List.mem_cons.mp hs with rfl | hs'
  · exact Or.inl rfl
  · rcases List.mem_map.mp hs' with ⟨n, hn, rfl⟩
    exact Or.inr ⟨n, by have := List.mem_range.mp hn; omega, rfl⟩


theorem mem_values_at_free (s : String) (hs : s ∈ values) :
    s.data.count '@' = 0 := by
  have hall : ∀ t ∈ values, t.data.count '@' = 0 := by decide
  exact hall s hs


theorem getD_mem_values (i : Nat) : values.getD i "" ∈ values := by
  by_cases h : i < values.length
  · rw [List.getD_eq_getElem _ _ h]; exact List.getElem_mem h
  · rw [List.getD_eq_default _ _ (by omega)]; exact List.mem_cons_self _ _


theorem data_append (s t : String) : (s ++ t).data = s.data ++ t.data := by
  cases s; cases t; rfl


theorem mkPattern_valid (c : Fin 33 × Fin 33 × Fin 33 × Fin 33) :
    validPattern (mkPattern c) := by
  obtain ⟨a, b, cc, d⟩ := c
  have h1 := getD_mem_values a.1
  have h2 := getD_mem_values b.1
  have h3 := getD_mem_values cc.1
  have h4 := getD_mem_values d.1
  refine ⟨?_, values.getD a.1 "", values.getD b.1 "", values.getD cc.1 "",
    values.getD d.1 "", rfl, ?_⟩
  · simp only [mkPattern, data_append, List.count_append]
    rw [mem_values_at_free _ h1, mem_values_at_free _ h2,
      mem_values_at_free _ h3, mem_values_at_free _ h4]
    rfl
  · intro s hs
    simp only [List.mem_cons, List.not_mem_nil, or_false] at hs
    rcases hs with rfl | rfl | rfl | rfl
    · exact ⟨mem_values_at_free _ h1, mem_values _ h1⟩
    · exact ⟨mem_values_at_free _ h2, mem_values _ h2⟩
    · exact ⟨mem_values_at_free _ h3, mem_values _ h3⟩
    · exact ⟨mem_values_at_free _ h4, mem_values _ h4⟩


/-- Claim C1: every pattern produced by `generate_random_patterns`, whatever the
random draws and however the final shuffle permutes the list, has exactly
three `'@'` delimiters forming four slots, each empty or the decimal
representation of an integer in `[0, 31]`. -/
theorem generate_random_patterns_all_valid
    (maxPatterns : Option Nat)
    (choice : Nat → Fin 33 × Fin 33 × Fin 33 × Fin 33)
    (shuffle : List String → List String)
    (hshuffle : ∀ l, (shuffle l).Perm l) :
    ∀ p ∈ generate_random_patterns maxPatterns choice shuffle,
      validPattern p := by
  intro p hp
  unfold generate_random_patterns at hp
  have hp' := (hshuffle _).mem_iff.mp hp
  rcases List.mem_map.mp hp' with ⟨i, _, rfl⟩
  exact mkPattern_valid _


/-- Witness for C1 at a concrete run: one iteration whose four draws all
pick the empty slot, shuffled by the identity, yields the pattern
`"@@@"`, which is valid. -/
theorem generate_random_patterns_all_valid_witness :
    validPattern "@@@" := by
  refine generate_random_patterns_all_valid (some 1) (fun _ => (0, 0, 0, 0))
    id (fun l => List.Perm.refl l) "@@@" ?_
  decide


theorem generate_length (maxPatterns : Option Nat)
    (choice : Nat → Fin 33 × Fin 33 × Fin 33 × Fin 33)
    (shuffle : List String → List String)
    (hshuffle : ∀ l, (shuffle l).Perm l) :
    (generate_random_patterns maxPatterns choice shuffle).length =
      match maxPatterns with
      | some n => if n ≠ 0 then n else 33 ^ 4
      | none => 33 ^ 4 := by
  simp only [generate_random_patterns]
  rw [(hshuffle _).length_eq, List.length_map, List.length_range]


/-- Counterexample to C5 as stated: supplying the count `N = 0` does not
produce 0 patterns.  The guard `if self.max_patterns:` is a Python
truthiness test, so `max_patterns = 0` is treated like `None` and the
generator falls back to the full default of `33 ^ 4` samples. -/
theorem generate_random_patterns_zero_count :
    (generate_random_patterns (some 0) (fun _ => (0, 0, 0, 0)) id).length ≠ 0 := by
  rw [generate_length (some 0) _ id (fun l => List.Perm.refl l)]
  norm_num


/-- Claim C5 (amended): for every nonzero caller-supplied target count `N`
the generator produces exactly `N` patterns, and with no count supplied
(`max_patterns = None`) it produces `33 ^ 4 = 1185921` patterns; a supplied
count of `0` also produces the full `1185921` (Python truthiness). -/
theorem generate_random_patterns_count
    (choice : Nat → Fin 33 × Fin 33 × Fin 33 × Fin 33)
    (shuffle : List String → List String)
    (hshuffle : ∀ l, (shuffle l).Perm l) :
    (∀ n : Nat, n ≠ 0 →
      (generate_random_patterns (some n) choice shuffle).length = n) ∧
    (generate_random_patterns none choice shuffle).length = 1185921 ∧
    (generate_random_patterns (some 0) choice shuffle).length = 1185921 := by
  refine ⟨fun n hn => ?_, ?_, ?_⟩ <;> rw [generate_length _ _ _ hshuffle]
  · simp [hn]
  · norm_num
  · norm_num


/-- Witness for the amended C5 at `N = 10` with the identity shuffle. -/
theorem generate_random_patterns_count_witness :
    (generate_random_patterns (some 10) (fun _ => (0, 0, 0, 0)) id).length = 10 :=
  (generate_random_patterns_count (fun _ => (0, 0, 0, 0)) id
    (fun l => List.Perm.refl l)).1 10 (by decide)


/-- Claim C6: the recorder's filename is exactly the spec's
`response_<seq6>_<sanitized>.txt`, and in particular sequence 7 with
pattern `"@@@"` yields `response_000007____.txt`. -/
theorem artifactFilename_correct :
    (∀ (s : Nat) (p : String), artifactFilename s p = specFilename s p) ∧
    artifactFilename 7 "@@@" = "response_000007____.txt" := by
  constructor
  · intro s p
    unfold artifactFilename specFilename
    have h : pyReplace (pyReplace p '@' '_') '/' '_' =
        (⟨p.data.map fun c => if c = '@' ∨ c = '/' then '_' else c⟩ : String) := by
      apply String.ext
      show (p.data.map _).map _ = p.data.map _
      rw [List.map_map]
      refine List.map_congr_left fun c _ => ?_
      by_cases h1 : c = '@' <;> by_cases h2 : c = '/' <;>
        simp [h1, h2, Function.comp]
    rw [h]
  · decide


theorem charVal_sextetChar : ∀ v < 64, charVal (sextetChar v) = some v := by decide


theorem sextetChar_ne_pad : ∀ v < 64, sextetChar v ≠ '=' := by decide


theorem decodeBytes_encodeBytes (bs : List Nat) (h : ∀ b ∈ bs, b < 256) :
    decodeBytes (encodeBytes bs) = some bs := by
  induction bs using encodeBytes.induct with
  | case1 => rfl
  | case2 a =>
    have ha : a < 256 := h a (by simp)
    simp only [encodeBytes, decodeBytes,
      charVal_sextetChar _ (show a / 4 < 64 by omega),
      charVal_sextetChar _ (show a % 4 * 16 < 64 by omega)]
    simp
    omega
  | case3 a b =>
    have ha : a < 256 := h a (by simp)
    have hb : b < 256 := h b (by simp)
    simp only [encodeBytes, decodeBytes,
      charVal_sextetChar _ (show a / 4 < 64 by omega),
      charVal_sextetChar _ (show a % 4 * 16 + b / 16 < 64 by omega),
      charVal_sextetChar _ (show b % 16 * 4 < 64 by omega)]
    rw [if_neg (sextetChar_ne_pad _ (by omega))]
    simp
    omega
  | case4 a b c rest ih =>
    have ha : a < 256 := h a (by simp)
    have hb : b < 256 := h b (by simp)
    have hc : c < 256 := h c (by simp)
    have hrest : ∀ x ∈ rest, x < 256 := fun x hx => h x (by simp [hx])
    simp only [encodeBytes, decodeBytes,
      charVal_sextetChar _ (show a / 4 < 64 by omega),
      charVal_sextetChar _ (show a % 4 * 16 + b / 16 < 64 by omega),
      charVal_sextetChar _ (show b % 16 * 4 + c / 64 < 64 by omega),
      charVal_sextetChar _ (show c % 64 < 64 by omega)]
    rw [if_neg (sextetChar_ne_pad _ (by omega)),
      if_neg (sextetChar_ne_pad _ (by omega)), ih hrest]
    simp
    omega


theorem utf8Bytes_lt (s : String) : ∀ b ∈ utf8Bytes s, b < 256 := by
  intro b hb
  rcases List.mem_map.mp hb with ⟨u, _, rfl⟩
  exact UInt8.toNat_lt u


/-- Claim C9: base64-encoding the UTF-8 bytes of any pattern string, as the
driver does per iteration, and then decoding the resulting text yields back
the exact original byte sequence (round-trip law). -/
theorem b64_roundtrip (pattern : String) :
    decodeBytes ((b64encode pattern).data) = some (utf8Bytes pattern) :=
  decodeBytes_encodeBytes _ (utf8Bytes_lt pattern)


/-- Claim C2: for every HTTP response processed by the driver loop, the
`[!] INTERESTING` line is printed iff the status code is ≥ 400 or the
status code is 200 with an empty body; in particular a 500-status
empty-body response is flagged and a 200-status non-empty-body response is
not. -/
theorem interesting_classification :
    (∀ (base_url : String) (i : Nat) (pattern : String) (writeOk : Bool)
        (ts : String) (sc : Nat) (content : List Nat) (text : String),
      (processOne base_url i pattern
          ⟨.success sc content text, writeOk, ts⟩).interesting = true
        ↔ (400 ≤ sc ∨ (sc = 200 ∧ content.length = 0))) ∧
    (processOne "" 1 "@@@" ⟨.success 500 [] "", true, "t"⟩).interesting
      = true ∧
    (processOne "" 1 "@@@" ⟨.success 200 [79, 75] "OK", true, "t"⟩).interesting
      = false := by
  refine ⟨fun base_url i pattern writeOk ts sc content text => ?_, rfl, rfl⟩
  show isInteresting sc content.length = true ↔ _
  simp [isInteresting]


/-- Claim C3: an iteration whose request raises a transport-level failure
appends exactly one Failure record — carrying the pattern, the encoded
pattern, the URL, the (non-empty) error description and a timestamp — and
the loop proceeds with the remaining patterns without aborting. -/
theorem transport_failure_one_record
    (base_url : String) (i : Nat) (pattern msg ts : String) (writeOk : Bool)
    (rest : List (String × IterEnv)) (hmsg : msg ≠ "") :
    fuzz_server base_url i
        ((pattern, ⟨.transportError msg, writeOk, ts⟩) :: rest)
      = ({ pattern := pattern, encoded_pattern := b64encode pattern,
           url := base_url ++ b64encode pattern, error := some msg,
           timestamp := ts } : ResultRecord)
        :: fuzz_server base_url (i + 1) rest
    ∧ msg ≠ "" :=
  ⟨rfl, hmsg⟩


/-- Witness for C3: a concrete run whose single pattern hits a transport
failure with description `"timeout"`. -/
theorem transport_failure_one_record_witness :
    fuzz_server "u" 1 [("@@@", ⟨.transportError "timeout", true, "t"⟩)]
      = ({ pattern := "@@@", encoded_pattern := b64encode "@@@",
           url := "u" ++ b64encode "@@@", error := some "timeout",
           timestamp := "t" } : ResultRecord)
        :: fuzz_server "u" 2 []
    ∧ "timeout" ≠ "" :=
  transport_failure_one_record "u" 1 "@@@" "timeout" "t" true [] (by decide)


/-- Claim C7: when the artifact write fails for an iteration whose request
succeeded, `save_curl_response` catches the failure and returns the absent
sentinel, the Success record is still appended with its `curl_file` field
present but absent-valued, and the loop continues with the next pattern. -/
theorem artifact_write_failure_recovered
    (base_url : String) (i : Nat) (pattern ts text : String) (sc : Nat)
    (content : List Nat) (rest : List (String × IterEnv)) :
    save_curl_response false i pattern = none ∧
    fuzz_server base_url i
        ((pattern, ⟨.success sc content text, false, ts⟩) :: rest)
      = ({ pattern := pattern, encoded_pattern := b64encode pattern,
           url := base_url ++ b64encode pattern, status_code := some sc,
           content_length := some content.length, curl_file := some none,
           timestamp := ts } : ResultRecord)
        :: fuzz_server base_url (i + 1) rest :=
  ⟨rfl, rfl⟩


/-- Counterexample to C8 as stated: an iteration that ends in a recorded
transport failure does not pause — `time.sleep(self.delay)` is the last
statement of the `try` block, and the `except RequestException` handler
appends the failure record and proceeds immediately to the next pattern. -/
theorem no_sleep_after_transport_failure :
    (processOne "u" 1 "@@@" ⟨.transportError "timeout", true, "t"⟩).slept
      = false := rfl


/-- Claim C8 (amended): the driver pauses for the configured delay
(default 0.01 s = 10 ms) exactly after the iterations whose HTTP request
returned a response; iterations ending in a transport failure (or any
other exception) proceed immediately to the next pattern. -/
theorem sleep_exactly_after_success :
    (∀ (base_url : String) (i : Nat) (pattern : String) (env : IterEnv),
      (processOne base_url i pattern env).slept = isSuccessOutcome env.http) ∧
    defaultDelaySeconds = 10 / 1000 := by
  refine ⟨fun base_url i pattern env => ?_, by norm_num [defaultDelaySeconds]⟩
  obtain ⟨http, w, ts⟩ := env
  cases http <;> rfl


theorem fuzz_server_append_normal (base_url : String)
    (xs : List (String × IterEnv))
    (hxs : ∀ x ∈ xs, isNormalEnv x.2 = true) :
    ∀ (i : Nat) (zs : List (String × IterEnv)),
      fuzz_server base_url i (xs ++ zs)
        = fuzz_server base_url i xs
          ++ fuzz_server base_url (i + xs.length) zs
      ∧ (fuzz_server base_url i xs).length = xs.length := by
  induction xs with
  | nil => intro i zs; simp [fuzz_server]
  | cons x xs ih =>
    intro i zs
    obtain ⟨p, http, w, ts⟩ := x
    have hx : isNormalEnv ⟨http, w, ts⟩ = true :=
      hxs (p, ⟨http, w, ts⟩) (by simp)
    have hxs' : ∀ x ∈ xs, isNormalEnv x.2 = true :=
      fun x hmem => hxs x (by simp [hmem])
    have harith : i + 1 + xs.length = i + (xs.length + 1) := by omega
    cases http with
    | success sc content text =>
      simp only [List.cons_append, fuzz_server, processOne]
      have h := ih hxs' (i + 1) zs
      simp [h.1, h.2, harith]
    | transportError msg =>
      simp only [List.cons_append, fuzz_server, processOne]
      have h := ih hxs' (i + 1) zs
      simp [h.1, h.2, harith]
    | interrupt => simp [isNormalEnv] at hx
    | unexpected msg => simp [isNormalEnv] at hx


/-- Claim C4: if a user interrupt arrives at the iteration following `K`
normally processed iterations, the loop stops there: the final result list
is exactly the `K` records of those iterations, its length is `K`, and the
reporter's statistics are computed from exactly that list. -/
theorem interrupt_truncates_run
    (base_url : String) (i : Nat) (xs : List (String × IterEnv))
    (p : String) (w : Bool) (ts : String) (ys : List (String × IterEnv))
    (hxs : ∀ x ∈ xs, isNormalEnv x.2 = true) :
    fuzz_server base_url i (xs ++ (p, ⟨.interrupt, w, ts⟩) :: ys)
      = fuzz_server base_url i xs
    ∧ (fuzz_server base_url i
        (xs ++ (p, ⟨.interrupt, w, ts⟩) :: ys)).length = xs.length
    ∧ print_summary
        (fuzz_server base_url i (xs ++ (p, ⟨.interrupt, w, ts⟩) :: ys))
      = print_summary (fuzz_server base_url i xs) := by
  have h := fuzz_server_append_normal base_url xs hxs i
    ((p, ⟨.interrupt, w, ts⟩) :: ys)
  have hstop : fuzz_server base_url (i + xs.length)
      ((p, ⟨.interrupt, w, ts⟩) :: ys) = [] := by
    simp [fuzz_server, processOne]
  have heq : fuzz_server base_url i (xs ++ (p, ⟨.interrupt, w, ts⟩) :: ys)
      = fuzz_server base_url i xs := by
    rw [h.1, hstop, List.append_nil]
  exact ⟨heq, by rw [heq]; exact h.2, by rw [heq]⟩


/-- Witness for C4: interrupting after the two normal iterations of
`demoNormal` yields exactly their two records and the summary over them. -/
theorem interrupt_truncates_run_witness :
    fuzz_server "u" 1 (demoNormal ++ ("5@@@", ⟨.interrupt, true, "t3"⟩)
        :: [("6@@@", ⟨.success 200 [] "", true, "t4"⟩)])
      = fuzz_server "u" 1 demoNormal
    ∧ (fuzz_server "u" 1 (demoNormal ++ ("5@@@", ⟨.interrupt, true, "t3"⟩)
        :: [("6@@@", ⟨.success 200 [] "", true, "t4"⟩)])).length
      = demoNormal.length
    ∧ print_summary (fuzz_server "u" 1
        (demoNormal ++ ("5@@@", ⟨.interrupt, true, "t3"⟩)
          :: [("6@@@", ⟨.success 200 [] "", true, "t4"⟩)]))
      = print_summary (fuzz_server "u" 1 demoNormal) :=
  interrupt_truncates_run "u" 1 demoNormal "5@@@" true "t3"
    [("6@@@", ⟨.success 200 [] "", true, "t4"⟩)] (by decide)


theorem fuzz_server_record_mem (base_url : String)
    (input : List (String × IterEnv)) :
    ∀ (i : Nat) (r : ResultRecord), r ∈ fuzz_server base_url i input →
      ((r.status_code.isSome = true ∧ r.error = none) ∨
        (r.status_code = none ∧ r.error.isSome = true)) ∧
      (r.curl_file ≠ none → r.status_code.isSome = true) := by
  induction input with
  | nil => intro i r hr; simp [fuzz_server] at hr
  | cons x rest ih =>
    intro i r hr
    obtain ⟨p, http, w, ts⟩ := x
    cases http with
    | success sc content text =>
      simp only [fuzz_server, processOne] at hr
      rcases List.mem_cons.mp (by simpa using hr) with rfl | htail
      · exact ⟨Or.inl ⟨rfl, rfl⟩, fun _ => rfl⟩
      · exact ih (i + 1) r htail
    | transportError msg =>
      simp only [fuzz_server, processOne] at hr
      rcases List.mem_cons.mp (by simpa using hr) with rfl | htail
      · exact ⟨Or.inr ⟨rfl, rfl⟩, fun hc => absurd rfl hc⟩
      · exact ih (i + 1) r htail
    | interrupt => simp [fuzz_server, processOne] at hr
    | unexpected msg =>
      simp only [fuzz_server, processOne] at hr
      exact ih (i + 1) r (by simpa using hr)


theorem length_filter_exclusive (l : List ResultRecord)
    (h : ∀ r ∈ l, (r.status_code.isSome = true ∧ r.error = none) ∨
      (r.status_code = none ∧ r.error.isSome = true)) :
    (successfulRecords l).length + (errorRecords l).length = l.length := by
  induction l with
  | nil => rfl
  | cons r l ih =>
    have hr := h r (by simp)
    have ih' := ih fun x hx => h x (by simp [hx])
    simp only [successfulRecords, errorRecords] at ih' ⊢
    rcases hr with ⟨h1, h2⟩ | ⟨h1, h2⟩ <;>
      simp [List.filter_cons, h1, h2] <;> omega


/-- Claim C10: every record the driver appends has exactly one of the
`status_code` and `error` keys (Success or Failure variant, never both,
never neither); hence the reporter's successful count plus its error count
equals the total count, and only Success records carry a `curl_file` key,
so only they can be counted as having a saved artifact. -/
theorem results_invariant (base_url : String) (i : Nat)
    (input : List (String × IterEnv)) :
    (∀ r ∈ fuzz_server base_url i input,
      ((r.status_code.isSome = true ∧ r.error = none) ∨
        (r.status_code = none ∧ r.error.isSome = true)) ∧
      (r.curl_file ≠ none → r.status_code.isSome = true)) ∧
    (successfulRecords (fuzz_server base_url i input)).length
        + (errorRecords (fuzz_server base_url i input)).length
      = (fuzz_server base_url i input).length :=
  ⟨fun r hr => fuzz_server_record_mem base_url input i r hr,
   length_filter_exclusive _
     (fun r hr => (fuzz_server_record_mem base_url input i r hr).1)⟩


/-- Witness for C10 on the concrete run over `demoNormal`: the variant
invariant at its Failure record, and the count identity of that run. -/
theorem results_invariant_witness :
    (((demoFailureRecord.status_code.isSome = true ∧
        demoFailureRecord.error = none) ∨
      (demoFailureRecord.status_code = none ∧
        demoFailureRecord.error.isSome = true)) ∧
      (demoFailureRecord.curl_file ≠ none →
        demoFailureRecord.status_code.isSome = true)) ∧
    (successfulRecords (fuzz_server "u" 1 demoNormal)).length
        + (errorRecords (fuzz_server "u" 1 demoNormal)).length
      = (fuzz_server "u" 1 demoNormal).length :=
  ⟨(results_invariant "u" 1 demoNormal).1 demoFailureRecord (by decide),
   (results_invariant "u" 1 demoNormal).2⟩


end Fuzzer

